import Mathlib

/-!
Shallow embedding of the walkassistant route-suggestion engine
(backend `main.go`, second revision, and `min_distance_route.go`).

Modelling conventions:
* Go `float64` values are modelled as real numbers (`ℝ`); float arithmetic
  is modelled as exact real arithmetic.
* The polyline decoder works on integers and a fixed-point scale of 1e5,
  so its output is modelled exactly with `ℚ`.
* The external OSRM routing service (an HTTP collaborator) is modelled as
  an oracle `Nat → List TrackPoint → Option OSRMResponse` indexed by the
  call number; `none` models a transport-level failure.
* The shared `routesMutex` and the HTTP call are modelled by an event
  trace (`Event`): the `RLock`/`RUnlock` calls and each `http.Get` to the
  routing service append an event, so lock-discipline properties can be
  stated over the trace.
-/

namespace WalkAssistant

open scoped Classical

/-- `TrackPoint` (main.go): a single point of a GPX track. -/
structure TrackPoint where
  Latitude : ℝ
  Longitude : ℝ

instance : Inhabited TrackPoint := ⟨⟨0, 0⟩⟩

/-- `RouteData` (main.go): a processed GPX track. -/
structure RouteData where
  Filename : String
  TrackPoints : List TrackPoint
  Distance : ℝ
  Duration : ℝ

/-- `SuggestedRoute` (main.go). -/
structure SuggestedRoute where
  Points : List TrackPoint
  Distance : ℝ
  FollowsStreets : Bool

/-- One entry of `OSRMResponse.Routes` (main.go).  The geometry string is
modelled as its list of byte values. -/
structure OSRMRoute where
  Geometry : List Nat
  Distance : ℝ

instance : Inhabited OSRMRoute := ⟨⟨[], 0⟩⟩

/-- `OSRMResponse` (main.go); the `Waypoints` field is never read by the
engine and is omitted. -/
structure OSRMResponse where
  Code : String
  Routes : List OSRMRoute

/-- Real-valued model of Go's `math.Atan2` (quadrant-aware arctangent). -/
noncomputable def atan2 (y x : ℝ) : ℝ :=
  if 0 < x then Real.arctan (y / x)
  else if x < 0 then
    (if 0 ≤ y then Real.arctan (y / x) + Real.pi else Real.arctan (y / x) - Real.pi)
  else
    (if 0 < y then Real.pi / 2 else if y < 0 then -(Real.pi / 2) else 0)

/-- `haversineDistance` (main.go): great-circle distance in km, with the
explicit equal-point guard returning exactly 0. -/
noncomputable def haversineDistance (lat1 lon1 lat2 lon2 : ℝ) : ℝ :=
  if lat1 = lat2 ∧ lon1 = lon2 then 0
  else
    let R : ℝ := 6371.0
    let lat1Rad := lat1 * (Real.pi / 180)
    let lat2Rad := lat2 * (Real.pi / 180)
    let lonDiff := (lon2 - lon1) * (Real.pi / 180)
    let latDiff := (lat2 - lat1) * (Real.pi / 180)
    let a := Real.sin (latDiff / 2) * Real.sin (latDiff / 2) +
      Real.cos lat1Rad * Real.cos lat2Rad * Real.sin (lonDiff / 2) * Real.sin (lonDiff / 2)
    let c := 2 * atan2 (Real.sqrt a) (Real.sqrt (1 - a))
    R * c

/-- `calculateRouteDistance` (main.go): sum of consecutive pairwise
haversine distances; 0 for fewer than 2 points. -/
noncomputable def calculateRouteDistance (points : List TrackPoint) : ℝ :=
  if points.length < 2 then 0
  else
    ((points.zip points.tail).map fun pq =>
      haversineDistance pq.1.Latitude pq.1.Longitude pq.2.Latitude pq.2.Longitude).sum

/-- `adjustRouteDistance` (main.go): scale every point toward the
centroid of the route by `scaleFactor`. -/
noncomputable def adjustRouteDistance (points : List TrackPoint) (scaleFactor : ℝ) :
    List TrackPoint :=
  let centroidLat := (points.map TrackPoint.Latitude).sum / points.length
  let centroidLng := (points.map TrackPoint.Longitude).sum / points.length
  points.map fun p =>
    ⟨centroidLat + (p.Latitude - centroidLat) * scaleFactor,
     centroidLng + (p.Longitude - centroidLng) * scaleFactor⟩

/-- The zigzag count of `extendRoute` (main.go):
`numZigzags := int(extensionFactor) - 1; if numZigzags < 1 { numZigzags = 1 }`.
Go's `int(x)` truncates toward zero, which for the `x > 1` values this is
used with equals `⌊x⌋`. -/
noncomputable def numZigzagsOf (extensionFactor : ℝ) : ℤ :=
  let n := ⌊extensionFactor⌋ - 1
  if n < 1 then 1 else n

/-- The zigzag points `extendRoute` (main.go) inserts between one
consecutive pair: alternating perpendicular offsets of the midpoint,
skipped entirely when the pair coincides (`length > 0` test). -/
noncomputable def zigzagPoints (p1 p2 : TrackPoint) (numZigzags : ℤ) : List TrackPoint :=
  let midLat := (p1.Latitude + p2.Latitude) / 2
  let midLng := (p1.Longitude + p2.Longitude) / 2
  let dLat := p2.Latitude - p1.Latitude
  let dLng := p2.Longitude - p1.Longitude
  let length := Real.sqrt (dLat * dLat + dLng * dLng)
  if 0 < length then
    let perpLat := -dLng / length * 0.01
    let perpLng := dLat / length * 0.01
    (List.range numZigzags.toNat).map fun j =>
      let direction : ℝ := if j % 2 = 1 then -1.0 else 1.0
      ⟨midLat + perpLat * direction, midLng + perpLng * direction⟩
  else []

/-- The per-pair loop of `extendRoute` (main.go): each iteration appends
the pair's first point and then the zigzag points; the final point is
appended after the loop. -/
noncomputable def extendLoop (numZigzags : ℤ) : List TrackPoint → List TrackPoint
  | [] => []
  | [p] => [p]
  | p1 :: p2 :: rest => (p1 :: zigzagPoints p1 p2 numZigzags) ++ extendLoop numZigzags (p2 :: rest)

/-- `extendRoute` (main.go): lengthen a route by inserting zigzag points;
returns the input unchanged when it has at most 2 points or the factor is
at most 1. -/
noncomputable def extendRoute (points : List TrackPoint) (extensionFactor : ℝ) :
    List TrackPoint :=
  if points.length ≤ 2 ∨ extensionFactor ≤ 1 then points
  else extendLoop (numZigzagsOf extensionFactor) points

/-!  Polyline decoder (`decodePolyline`, main.go).

The Go code walks the string by an index `index`, guarded by
`if index >= len(polyline) { break }` before every byte read.  To make the
absence of out-of-bounds reads a provable statement rather than an
artifact of the embedding, the byte access is modelled with `List.get?`
and an `Option`: `none` means an out-of-bounds read (or a failure of the
loops to terminate within the given fuel), both of which the safety
theorem rules out.

Bit-level operations are modelled with exact integer arithmetic:
* `b & 0x1f` is `b % 32` (two's-complement AND with a mask of low bits);
* `latResult |= chunk << latShift` is `latResult + chunk * 2 ^ latShift`
  (each 5-bit chunk is ORed into a disjoint, previously-zero bit range,
  so OR is addition);
* `latResult >> 1` on the non-negative accumulator is `latResult / 2`;
* Go's bitwise complement `^x` is `-x - 1`.
-/

/-- One inner loop of `decodePolyline` (main.go): decode a single
variable-length value starting at `index`, returning the raw accumulated
value and the index after it.  The loop body reads `polyline[index]` only
after the `index >= len(polyline)` guard. -/
def decodeValueChunk (polyline : List Nat) : Nat → Nat → ℤ → Nat → Option (ℤ × Nat)
  | 0, _, _, _ => none
  | fuel + 1, index, result, shift =>
    if polyline.length ≤ index then some (result, index)
    else
      match polyline.get? index with
      | none => none
      | some c =>
        let b : ℤ := (c : ℤ) - 63
        let result := result + (b % 32) * 2 ^ shift
        if b < 32 then some (result, index + 1)
        else decodeValueChunk polyline fuel (index + 1) result (shift + 5)

/-- Go's sign folding in `decodePolyline` (main.go):
`if result & 1 == 1 { change = ^(result >> 1) } else { change = result >> 1 }`. -/
def signedChange (result : ℤ) : ℤ :=
  if result % 2 = 1 then -(result / 2) - 1 else result / 2

/-- The outer loop of `decodePolyline` (main.go): while `index` is in
range, decode a latitude delta and a longitude delta and emit one
coordinate pair (scaled by 1e5). -/
def decodePolylineLoop (polyline : List Nat) :
    Nat → Nat → ℤ → ℤ → Option (List (ℚ × ℚ))
  | 0, _, _, _ => none
  | fuel + 1, index, lat, lng =>
    if polyline.length ≤ index then some []
    else
      match decodeValueChunk polyline (polyline.length + 1) index 0 0 with
      | none => none
      | some (latResult, index) =>
        let lat := lat + signedChange latResult
        match decodeValueChunk polyline (polyline.length + 1) index 0 0 with
        | none => none
        | some (lngResult, index) =>
          let lng := lng + signedChange lngResult
          match decodePolylineLoop polyline fuel index lat lng with
          | none => none
          | some rest => some (((lat : ℚ) / 100000, (lng : ℚ) / 100000) :: rest)

/-- `decodePolyline` (main.go) with the instrumented byte access:
`none` would mean an out-of-bounds read or non-termination. -/
def decodePolylineChecked (polyline : List Nat) : Option (List (ℚ × ℚ)) :=
  decodePolylineLoop polyline (polyline.length + 1) 0 0 0

/-- `decodePolyline` (main.go): decode a polyline byte string into a list
of (lat, lng) pairs. -/
def decodePolyline (polyline : List Nat) : List (ℚ × ℚ) :=
  (decodePolylineChecked polyline).getD []

/-- `isRouteNearExistingRoutes` (main.go): at least 50% of the points lie
inside the bounding box expanded by 50% padding on each side. -/
noncomputable def isRouteNearExistingRoutes (points : List TrackPoint)
    (minLat maxLat minLng maxLng : ℝ) : Prop :=
  let latPadding := (maxLat - minLat) * 0.5
  let lngPadding := (maxLng - minLng) * 0.5
  let minLatP := minLat - latPadding
  let maxLatP := maxLat + latPadding
  let minLngP := minLng - lngPadding
  let maxLngP := maxLng + lngPadding
  let pointsInBounds := (points.filter fun p =>
    minLatP ≤ p.Latitude ∧ p.Latitude ≤ maxLatP ∧
    minLngP ≤ p.Longitude ∧ p.Longitude ≤ maxLngP).length
  (0.5 : ℝ) ≤ (pointsInBounds : ℝ) / (points.length : ℝ)

/-- The sampling loop of `getRouteFollowingStreets` (main.go):
`for i := 0; i < len(points); i += step { append points[i] }`, expressed
by consuming the list: take the head, then skip `step - 1` elements. -/
def sampleLoop : List TrackPoint → Nat → List TrackPoint
  | [], _ => []
  | p :: rest, step => p :: sampleLoop (rest.drop (step - 1)) step
termination_by l _ => l.length
decreasing_by simp [List.length_drop]; omega

/-- The waypoint downsampling of `getRouteFollowingStreets` (main.go):
when more than 100 points are given, sample with stride
`len(points) / 100` and re-append the last point if the sampling lost it.
The `sampledPoints[len-1]` / `points[len-1]` accesses are modelled with
`getLastD` (both lists are non-empty where the code reads them). -/
noncomputable def downsamplePoints (points : List TrackPoint) : List TrackPoint :=
  if 100 < points.length then
    let step := points.length / 100
    let step := if step < 1 then 1 else step
    let sampledPoints := sampleLoop points step
    if sampledPoints ≠ [] ∧ sampledPoints.getLastD default ≠ points.getLastD default then
      sampledPoints ++ [points.getLastD default]
    else sampledPoints
  else points

/-- The bounding-box length estimate of `getRouteFollowingStreets`
(main.go, also duplicated in `generateSuggestedRoutes`): twice the sum of
the width and height of the points' bounding box.  The box scan
initializes on the first point (`if i == 0`) and otherwise updates with
`if v < min { min = v } else if v > max { max = v }`. -/
noncomputable def estimateDistanceFromBBox (trackPoints : List TrackPoint) : ℝ :=
  let box := trackPoints.enum.foldl
    (fun acc ip =>
      let (minLat, maxLat, minLng, maxLng) := acc
      let p := ip.2
      if ip.1 = 0 then (p.Latitude, p.Latitude, p.Longitude, p.Longitude)
      else
        let latB := if p.Latitude < minLat then (p.Latitude, maxLat)
          else if maxLat < p.Latitude then (minLat, p.Latitude) else (minLat, maxLat)
        let lngB := if p.Longitude < minLng then (p.Longitude, maxLng)
          else if maxLng < p.Longitude then (minLng, p.Longitude) else (minLng, maxLng)
        (latB.1, latB.2, lngB.1, lngB.2))
    (0, 0, 0, 0)
  let width := haversineDistance box.1 box.2.2.1 box.1 box.2.2.2
  let height := haversineDistance box.1 box.2.2.1 box.2.1 box.2.2.1
  2 * (width + height)

/-- The distance computation on the success path of
`getRouteFollowingStreets` (main.go): recompute the length of the decoded
points; if that is under 0.1 km (and the response has routes), fall back
to the service-reported length in meters / 1000; if that is still under
0.1 km, fall back to the bounding-box estimate. -/
noncomputable def conformedDistance (trackPoints : List TrackPoint)
    (osrmRoutes : List OSRMRoute) : ℝ :=
  let actualDistance := if 2 ≤ trackPoints.length then calculateRouteDistance trackPoints else 0
  if actualDistance < 0.1 ∧ 0 < osrmRoutes.length then
    let actualDistance := (osrmRoutes.headD default).Distance / 1000
    if actualDistance < 0.1 then estimateDistanceFromBBox trackPoints
    else actualDistance
  else actualDistance

/-- Observable events of a suggestion request: acquiring/releasing the
shared `routesMutex` read lock and issuing an HTTP request to the OSRM
routing service. -/
inductive Event where
  | rlock
  | runlock
  | osrmCall
deriving DecidableEq

/-- The state threaded through a modelled request: how many routing-service
calls have been made (used to index the oracle) and the event trace. -/
structure SimState where
  calls : Nat
  events : List Event

/-- The external OSRM routing service, modelled as a deterministic oracle:
given the index of the call and the waypoint list, it returns `none` for a
transport failure or `some` parsed response. -/
def OsrmOracle : Type := Nat → List TrackPoint → Option OSRMResponse

/-- `getRouteFollowingStreets` (main.go): downsample the waypoints, call
the OSRM service (an `osrmCall` event), and on a successful response with
at least one route decode the polyline geometry and compute the returned
distance.  Transport failures, non-"Ok" codes and empty route lists all
surface as `none`. -/
noncomputable def getRouteFollowingStreets (oracle : OsrmOracle)
    (points : List TrackPoint) (st : SimState) : Option SuggestedRoute × SimState :=
  let points := downsamplePoints points
  let resp := oracle st.calls points
  let st : SimState := ⟨st.calls + 1, st.events ++ [.osrmCall]⟩
  match resp with
  | none => (none, st)
  | some osrmResp =>
    if osrmResp.Code ≠ "Ok" ∨ osrmResp.Routes.length = 0 then (none, st)
    else
      let decodedPoints := decodePolyline (osrmResp.Routes.headD default).Geometry
      let trackPoints : List TrackPoint :=
        decodedPoints.map fun point => ⟨(point.1 : ℝ), (point.2 : ℝ)⟩
      (some ⟨trackPoints, conformedDistance trackPoints osrmResp.Routes, true⟩, st)

/-- Models `routesMutex.RLock()` followed by `defer routesMutex.RUnlock()`:
the lock-acquire event precedes the body and the release event follows
every return path of the body. -/
noncomputable def withRLock {α : Type} (body : SimState → α × SimState) (st : SimState) :
    α × SimState :=
  let st : SimState := ⟨st.calls, st.events ++ [Event.rlock]⟩
  let (res, st) := body st
  (res, ⟨st.calls, st.events ++ [Event.runlock]⟩)

/-- The bounding-box/center computation of `generateRouteWithMinDistance`
(min_distance_route.go, lines 14-53): scan all points with a `hasPoints`
flag, take the box midpoint, and fall back to the fixed default location
(Berlin) when `minLat == 0 && maxLat == 0`. -/
noncomputable def genMinCenter (routes : List RouteData) : ℝ × ℝ :=
  let scan := (routes.flatMap RouteData.TrackPoints).foldl
    (fun acc p =>
      let (hasPoints, minLat, maxLat, minLng, maxLng) := acc
      if hasPoints = false then (true, p.Latitude, p.Latitude, p.Longitude, p.Longitude)
      else
        let latB := if p.Latitude < minLat then (p.Latitude, maxLat)
          else if maxLat < p.Latitude then (minLat, p.Latitude) else (minLat, maxLat)
        let lngB := if p.Longitude < minLng then (p.Longitude, maxLng)
          else if maxLng < p.Longitude then (minLng, p.Longitude) else (minLng, maxLng)
        (true, latB.1, latB.2, lngB.1, lngB.2))
    (false, 0, 0, 0, 0)
  let minLat := scan.2.1
  let maxLat := scan.2.2.1
  let minLng := scan.2.2.2.1
  let maxLng := scan.2.2.2.2
  let centerLat := (minLat + maxLat) / 2
  let centerLng := (minLng + maxLng) / 2
  if minLat = 0 ∧ maxLat = 0 then (52.52, 13.405) else (centerLat, centerLng)

/-- `generateRouteWithMinDistance` (min_distance_route.go): the retry
ladder for a street-following route of at least `minDistance` km, seeded
around `genMinCenter`.  Every return path yields exactly one route. -/
noncomputable def generateRouteWithMinDistance (minDistance : ℝ) (routes : List RouteData)
    (oracle : OsrmOracle) (st : SimState) : List SuggestedRoute × SimState :=
  withRLock (fun st =>
    let center := genMinCenter routes
    let centerLat := center.1
    let centerLng := center.2
    -- last-resort 2-point attempt with a much larger offset (lines 129-163)
    let lastResort := fun (st : SimState) =>
      let offset := Real.sqrt minDistance * 2 / 111.0
      let simplePoints : List TrackPoint :=
        [⟨centerLat - offset, centerLng - offset⟩, ⟨centerLat + offset, centerLng + offset⟩]
      let call := getRouteFollowingStreets oracle simplePoints st
      match call with
      | (some streetRoute, st) => ([streetRoute], st)
      | (none, st) =>
        ([⟨simplePoints, calculateRouteDistance simplePoints, false⟩], st)
    -- square polygon attempt, using the doubled offset (lines 99-127)
    let polygonAttempt := fun (st : SimState) (offset : ℝ) =>
      let polygonPoints := (List.range 4).map fun i =>
        let angle := 2.0 * Real.pi * (i : ℝ) / (4 : ℝ)
        (⟨centerLat + offset * Real.sin angle, centerLng + offset * Real.cos angle⟩ : TrackPoint)
      let polygonPoints := polygonPoints ++ [polygonPoints.headD default]
      let call := getRouteFollowingStreets oracle polygonPoints st
      match call with
      | (some streetRoute, st) =>
        if minDistance ≤ streetRoute.Distance then ([streetRoute], st) else lastResort st
      | (none, st) => lastResort st
    -- doubled-offset 2-point attempt (lines 80-97)
    let largerAttempt := fun (st : SimState) (offset : ℝ) =>
      let offset := offset * 2.0
      let simplePoints : List TrackPoint :=
        [⟨centerLat - offset, centerLng - offset⟩, ⟨centerLat + offset, centerLng + offset⟩]
      let call := getRouteFollowingStreets oracle simplePoints st
      match call with
      | (some streetRoute, st) =>
        if minDistance ≤ streetRoute.Distance then ([streetRoute], st) else polygonAttempt st offset
      | (none, st) => polygonAttempt st offset
    -- first 2-point attempt (lines 58-78)
    let offset := Real.sqrt (minDistance / 2.0) / 111.0
    let simplePoints : List TrackPoint :=
      [⟨centerLat - offset, centerLng - offset⟩, ⟨centerLat + offset, centerLng + offset⟩]
    let call := getRouteFollowingStreets oracle simplePoints st
    match call with
    | (some streetRoute, st) =>
      if minDistance ≤ streetRoute.Distance then ([streetRoute], st) else largerAttempt st offset
    | (none, st) => largerAttempt st offset) st

/-- The bounding-box scan of `generateSuggestedRoutes` (main.go):
initialized from the very first point (`i == 0 && j == 0`), otherwise
updated with `if v < min { min = v } else if v > max { max = v }`.
(The `allPoints` slice the loop also builds is never read afterwards.) -/
noncomputable def findBoundingBox (routes : List RouteData) : ℝ × ℝ × ℝ × ℝ :=
  (routes.enum.flatMap fun ir => ir.2.TrackPoints.enum.map fun jp => (ir.1, jp.1, jp.2)).foldl
    (fun acc x =>
      let (minLat, maxLat, minLng, maxLng) := acc
      let p := x.2.2
      if x.1 = 0 ∧ x.2.1 = 0 then (p.Latitude, p.Latitude, p.Longitude, p.Longitude)
      else
        let latB := if p.Latitude < minLat then (p.Latitude, maxLat)
          else if maxLat < p.Latitude then (minLat, p.Latitude) else (minLat, maxLat)
        let lngB := if p.Longitude < minLng then (p.Longitude, maxLng)
          else if maxLng < p.Longitude then (minLng, p.Longitude) else (minLng, maxLng)
        (latB.1, latB.2, lngB.1, lngB.2))
    (0, 0, 0, 0)

/-- The mathematical-scaling fallback of the max-distance retry ladder
(main.go; the same code appears at lines 1204-1210, 1216-1221 and
1225-1230): scale the conformed route toward its centroid by
`maxDistance / streetDistance` and recompute its length. -/
noncomputable def maxRetryFallbackScale (maxDistance streetDistance : ℝ)
    (streetRoute : SuggestedRoute) (st : SimState) : SuggestedRoute × SimState :=
  let scaleFactor := maxDistance / streetDistance
  let pts := adjustRouteDistance streetRoute.Points scaleFactor
  (({ streetRoute with Points := pts, Distance := calculateRouteDistance pts } :
    SuggestedRoute), st)

/-- The small fixed-square attempt of the max-distance retry ladder
(main.go, lines 1184-1211). -/
noncomputable def maxRetryRectAttempt (maxDistance streetDistance centerLat centerLng : ℝ)
    (streetRoute : SuggestedRoute) (oracle : OsrmOracle) (st : SimState) :
    SuggestedRoute × SimState :=
  let offset := maxDistance / 10.0 / 111.0
  let rectPoints : List TrackPoint :=
    [⟨centerLat - offset, centerLng - offset⟩, ⟨centerLat - offset, centerLng + offset⟩,
     ⟨centerLat + offset, centerLng + offset⟩, ⟨centerLat + offset, centerLng - offset⟩,
     ⟨centerLat - offset, centerLng - offset⟩]
  match getRouteFollowingStreets oracle rectPoints st with
  | (some simpleRoute, st) =>
    if simpleRoute.Distance ≤ maxDistance * 1.1 then (simpleRoute, st)
    else maxRetryFallbackScale maxDistance streetDistance streetRoute st
  | (none, st) => maxRetryFallbackScale maxDistance streetDistance streetRoute st

/-- The second scaled-perimeter attempt of the max-distance retry ladder,
at 0.5 times the distance ratio (main.go, lines 1162-1181). -/
noncomputable def maxRetrySecondAttempt (maxDistance streetDistance percent : ℝ)
    (centerLat centerLng : ℝ) (perimeter : List TrackPoint)
    (streetRoute : SuggestedRoute) (oracle : OsrmOracle) (st : SimState) :
    SuggestedRoute × SimState :=
  let scaleFactor := percent * 0.5
  let scaledPoints := perimeter.map fun p =>
    (⟨centerLat + (p.Latitude - centerLat) * scaleFactor,
      centerLng + (p.Longitude - centerLng) * scaleFactor⟩ : TrackPoint)
  match getRouteFollowingStreets oracle scaledPoints st with
  | (some newStreetRoute, st) =>
    if newStreetRoute.Distance ≤ maxDistance * 1.1 then (newStreetRoute, st)
    else maxRetryRectAttempt maxDistance streetDistance centerLat centerLng streetRoute oracle st
  | (none, st) =>
    maxRetryRectAttempt maxDistance streetDistance centerLat centerLng streetRoute oracle st

/-- The max-distance retry ladder of `generateSuggestedRoutes` (main.go,
lines 1116-1231): shrink the original perimeter toward its centroid by
0.8 and then 0.5 times `maxDistance / streetDistance`, then try a small
fixed square, and finally scale the conformed route mathematically. -/
noncomputable def maxRetryBranch (maxDistance streetDistance : ℝ)
    (perimeter : List TrackPoint) (streetRoute : SuggestedRoute)
    (oracle : OsrmOracle) (st : SimState) : SuggestedRoute × SimState :=
  let percent := maxDistance / streetDistance
  if 4 ≤ perimeter.length then
    let centerLat := (perimeter.map TrackPoint.Latitude).sum / perimeter.length
    let centerLng := (perimeter.map TrackPoint.Longitude).sum / perimeter.length
    -- first scaled-perimeter attempt at 0.8 × percent (lines 1138-1160)
    let scaleFactor := percent * 0.8
    let scaledPoints := perimeter.map fun p =>
      (⟨centerLat + (p.Latitude - centerLat) * scaleFactor,
        centerLng + (p.Longitude - centerLng) * scaleFactor⟩ : TrackPoint)
    match getRouteFollowingStreets oracle scaledPoints st with
    | (some newStreetRoute, st) =>
      if newStreetRoute.Distance ≤ maxDistance * 1.1 then (newStreetRoute, st)
      else maxRetrySecondAttempt maxDistance streetDistance percent centerLat centerLng
        perimeter streetRoute oracle st
    | (none, st) => maxRetryFallbackScale maxDistance streetDistance streetRoute st
  else maxRetryFallbackScale maxDistance streetDistance streetRoute st

/-- The pentagon construction of the min-distance retry ladder (main.go;
the loop appears identically at lines 1276-1285 and 1307-1317):
`numPoints = 5` vertices around the center plus the repeated first
point. -/
noncomputable def pentagonPoints (centerLat centerLng offset : ℝ) : List TrackPoint :=
  let pts := (List.range 5).map fun i =>
    let angle := 2.0 * Real.pi * (i : ℝ) / (5 : ℝ)
    (⟨centerLat + offset * Real.sin angle, centerLng + offset * Real.cos angle⟩ : TrackPoint)
  pts ++ [pts.headD default]

/-- The zigzag fallback of the min-distance retry ladder (main.go, lines
1371-1379): extend the conformed route and mark it as not
street-following. -/
noncomputable def minRetryFinalFallback (minDistance streetDistance : ℝ)
    (streetRoute : SuggestedRoute) (st : SimState) : SuggestedRoute × SimState :=
  let pts := extendRoute streetRoute.Points (minDistance / streetDistance)
  -- sets Points, Distance and FollowsStreets := false on the conformed route
  ((⟨pts, calculateRouteDistance pts, false⟩ : SuggestedRoute), st)

/-- The 2-point seed at `sqrt(minDistance)/111` of the min-distance retry
ladder (main.go, lines 1353-1370). -/
noncomputable def minRetryLargeSimple (minDistance streetDistance centerLat centerLng : ℝ)
    (streetRoute : SuggestedRoute) (oracle : OsrmOracle) (st : SimState) :
    SuggestedRoute × SimState :=
  let offset := Real.sqrt minDistance / 111.0
  let simplePoints : List TrackPoint :=
    [⟨centerLat - offset, centerLng - offset⟩, ⟨centerLat + offset, centerLng + offset⟩]
  match getRouteFollowingStreets oracle simplePoints st with
  | (some newStreetRoute, st) =>
    if minDistance ≤ newStreetRoute.Distance then (newStreetRoute, st)
    else minRetryFinalFallback minDistance streetDistance streetRoute st
  | (none, st) => minRetryFinalFallback minDistance streetDistance streetRoute st

/-- The 2-point seed at `sqrt(minDistance/2)/111` of the min-distance
retry ladder (main.go, lines 1331-1352). -/
noncomputable def minRetrySimple (minDistance streetDistance centerLat centerLng : ℝ)
    (streetRoute : SuggestedRoute) (oracle : OsrmOracle) (st : SimState) :
    SuggestedRoute × SimState :=
  let offset := Real.sqrt (minDistance / 2.0) / 111.0
  let simplePoints : List TrackPoint :=
    [⟨centerLat - offset, centerLng - offset⟩, ⟨centerLat + offset, centerLng + offset⟩]
  match getRouteFollowingStreets oracle simplePoints st with
  | (some newStreetRoute, st) =>
    if minDistance ≤ newStreetRoute.Distance then (newStreetRoute, st)
    else minRetryLargeSimple minDistance streetDistance centerLat centerLng
      streetRoute oracle st
  | (none, st) =>
    minRetryLargeSimple minDistance streetDistance centerLat centerLng streetRoute oracle st

/-- The doubled-pentagon attempt of the min-distance retry ladder
(main.go, lines 1300-1330). -/
noncomputable def minRetryLargerPolygon (minDistance streetDistance centerLat centerLng : ℝ)
    (offset : ℝ) (streetRoute : SuggestedRoute) (oracle : OsrmOracle) (st : SimState) :
    SuggestedRoute × SimState :=
  let offset := offset * 2.0
  let polygonPoints := pentagonPoints centerLat centerLng offset
  match getRouteFollowingStreets oracle polygonPoints st with
  | (some newStreetRoute, st) =>
    if minDistance ≤ newStreetRoute.Distance then (newStreetRoute, st)
    else minRetrySimple minDistance streetDistance centerLat centerLng streetRoute oracle st
  | (none, st) =>
    minRetrySimple minDistance streetDistance centerLat centerLng streetRoute oracle st

/-- The min-distance retry ladder of `generateSuggestedRoutes` (main.go,
lines 1238-1384): compute a center (taking the nested read lock over the
track collection), try a pentagon, a doubled pentagon, then two 2-point
seeds, and finally zigzag-extend the conformed route, marking it as not
street-following. -/
noncomputable def minRetryBranch (minDistance streetDistance : ℝ)
    (perimeter : List TrackPoint) (routes : List RouteData)
    (streetRoute : SuggestedRoute) (oracle : OsrmOracle) (st : SimState) :
    SuggestedRoute × SimState :=
  -- nested routesMutex.RLock() ... RUnlock() around the center scan
  let st : SimState := ⟨st.calls, st.events ++ [Event.rlock]⟩
  let scan := routes.foldl
    (fun acc r => r.TrackPoints.foldl
      (fun acc2 p => (acc2.1 + p.Latitude, acc2.2.1 + p.Longitude, acc2.2.2 + 1)) acc)
    ((0 : ℝ), (0 : ℝ), (0 : ℕ))
  let st : SimState := ⟨st.calls, st.events ++ [Event.runlock]⟩
  let totalPoints := scan.2.2
  let center :=
    if totalPoints = 0 then
      (((perimeter.map TrackPoint.Latitude).sum / perimeter.length : ℝ),
       ((perimeter.map TrackPoint.Longitude).sum / perimeter.length : ℝ))
    else (scan.1 / totalPoints, scan.2.1 / totalPoints)
  let centerLat := center.1
  let centerLng := center.2
  -- first pentagon (lines 1266-1298)
  let offset := Real.sqrt (minDistance / 10.0) / 111.0
  let polygonPoints := pentagonPoints centerLat centerLng offset
  match getRouteFollowingStreets oracle polygonPoints st with
  | (some newStreetRoute, st) =>
    if minDistance ≤ newStreetRoute.Distance then (newStreetRoute, st)
    else minRetryLargerPolygon minDistance streetDistance centerLat centerLng offset
      streetRoute oracle st
  | (none, st) =>
    minRetryLargerPolygon minDistance streetDistance centerLat centerLng offset
      streetRoute oracle st

/-- The handling of a successfully conformed route inside
`generateSuggestedRoutes` (main.go, lines 1077-1398): the proximity
check, the too-small-distance estimate, the max/min retry ladders, and
the final selection of the returned route (including the unconditional
`FollowsStreets = true` in the min-distance case at lines 1386-1391). -/
noncomputable def applyStreetRoute (minDistance maxDistance : ℝ)
    (minLat maxLat minLng maxLng : ℝ) (perimeter : List TrackPoint)
    (routes : List RouteData) (streetRoute : SuggestedRoute)
    (suggestedRoute : SuggestedRoute) (oracle : OsrmOracle) (st : SimState) :
    List SuggestedRoute × SimState :=
  if isRouteNearExistingRoutes streetRoute.Points minLat maxLat minLng maxLng then
    let streetDistance := streetRoute.Distance
    let ds :=
      if streetDistance < 0.1 then
        let estimatedDistance := estimateDistanceFromBBox streetRoute.Points
        (estimatedDistance,
         ({ streetRoute with Distance := estimatedDistance } : SuggestedRoute))
      else (streetDistance, streetRoute)
    let streetDistance := ds.1
    let streetRoute := ds.2
    let rs :=
      if 0 < maxDistance ∧ maxDistance < streetDistance then
        maxRetryBranch maxDistance streetDistance perimeter streetRoute oracle st
      else if 0 < minDistance ∧ streetDistance < minDistance then
        minRetryBranch minDistance streetDistance perimeter routes streetRoute oracle st
      else (streetRoute, st)
    let streetRoute := rs.1
    let st := rs.2
    let suggestedRoute :=
      if 0 < minDistance ∧ streetDistance < minDistance then
        (⟨streetRoute.Points, streetRoute.Distance, true⟩ : SuggestedRoute)
      else if isRouteNearExistingRoutes streetRoute.Points minLat maxLat minLng maxLng then
        (⟨streetRoute.Points, streetRoute.Distance, true⟩ : SuggestedRoute)
      else suggestedRoute
    ([suggestedRoute], st)
  else ([suggestedRoute], st)

/-- The locked body of `generateSuggestedRoutes` (main.go, lines
973-1415): returns no suggestions when the track collection is empty,
builds a jittered perimeter candidate (the four `rand.Float64()` draws are
the parameters `r1`-`r4`), applies the plain-geometry distance transforms,
and optionally street-conforms the candidate with the retry ladders. -/
noncomputable def generateSuggestedRoutesBody (minDistance maxDistance : ℝ)
    (followStreets : Bool) (routes : List RouteData) (oracle : OsrmOracle)
    (r1 r2 r3 r4 : ℝ) (st : SimState) : List SuggestedRoute × SimState :=
  (fun st =>
    if routes.length = 0 then ([], st)
    else
      let box := findBoundingBox routes
      let minLat := box.1
      let maxLat := box.2.1
      let minLng := box.2.2.1
      let maxLng := box.2.2.2
      let latRange := maxLat - minLat
      let lngRange := maxLng - minLng
      let minLatVar := minLat + (r1 * 0.1 - 0.05) * latRange
      let minLngVar := minLng + (r2 * 0.1 - 0.05) * lngRange
      let maxLatVar := maxLat + (r3 * 0.1 - 0.05) * latRange
      let maxLngVar := maxLng + (r4 * 0.1 - 0.05) * lngRange
      let perimeter : List TrackPoint :=
        [⟨minLatVar, minLngVar⟩, ⟨minLatVar, maxLngVar⟩, ⟨maxLatVar, maxLngVar⟩,
         ⟨maxLatVar, minLngVar⟩, ⟨minLatVar, minLngVar⟩]
      let distance := calculateRouteDistance perimeter
      let pd :=
        if 0 < maxDistance ∧ maxDistance < distance then
          let perimeter := adjustRouteDistance perimeter (maxDistance / distance)
          (perimeter, calculateRouteDistance perimeter)
        else if 0 < minDistance ∧ distance < minDistance then
          let perimeter := extendRoute perimeter (minDistance / distance)
          (perimeter, calculateRouteDistance perimeter)
        else (perimeter, distance)
      let perimeter := pd.1
      let distance := pd.2
      let suggestedRoute : SuggestedRoute := ⟨perimeter, distance, false⟩
      if followStreets then
        match getRouteFollowingStreets oracle perimeter st with
        | (some streetRoute, st) =>
          applyStreetRoute minDistance maxDistance minLat maxLat minLng maxLng perimeter
            routes streetRoute suggestedRoute oracle st
        | (none, st) => ([suggestedRoute], st)
      else ([suggestedRoute], st)) st

/-- `generateSuggestedRoutes` (main.go, lines 970-1416): the fit
controller.  Takes the read lock on entry (lines 971-972, released by
`defer` on every return path) around `generateSuggestedRoutesBody`. -/
noncomputable def generateSuggestedRoutes (minDistance maxDistance : ℝ)
    (followStreets : Bool) (routes : List RouteData) (oracle : OsrmOracle)
    (r1 r2 r3 r4 : ℝ) (st : SimState) : List SuggestedRoute × SimState :=
  withRLock (generateSuggestedRoutesBody minDistance maxDistance followStreets routes
    oracle r1 r2 r3 r4) st

/-- The dispatch of `suggestHandler` (main.go, lines 950-959): a request
with `minDistance > 0` and `followStreets` goes to the specialized
`generateRouteWithMinDistance` (which never sees `maxDistance`); all other
requests go to `generateSuggestedRoutes`. -/
noncomputable def suggestRoutes (minDistance maxDistance : ℝ) (followStreets : Bool)
    (routes : List RouteData) (oracle : OsrmOracle) (r1 r2 r3 r4 : ℝ) (st : SimState) :
    List SuggestedRoute × SimState :=
  if 0 < minDistance ∧ followStreets = true then
    generateRouteWithMinDistance minDistance routes oracle st
  else
    generateSuggestedRoutes minDistance maxDistance followStreets routes oracle r1 r2 r3 r4 st

/-- Net lock-depth change of an event list (`rlock` is +1, `runlock` is
-1). -/
def netDepth : List Event → ℤ
  | [] => 0
  | Event.rlock :: rest => netDepth rest + 1
  | Event.runlock :: rest => netDepth rest - 1
  | Event.osrmCall :: rest => netDepth rest

/-- Starting from lock depth `d`, check that every routing-service call in
the trace happens while the read lock is held (depth at least 1). -/
def heldFrom : ℤ → List Event → Bool
  | _, [] => true
  | d, Event.rlock :: rest => heldFrom (d + 1) rest
  | d, Event.runlock :: rest => heldFrom (d - 1) rest
  | d, Event.osrmCall :: rest => decide (1 ≤ d) && heldFrom d rest

/-- Starting from lock depth `d`, check that every routing-service call in
the trace happens with the read lock released (depth at most 0) — the
discipline the specification claims. -/
def lockFreeCalls : ℤ → List Event → Bool
  | _, [] => true
  | d, Event.rlock :: rest => lockFreeCalls (d + 1) rest
  | d, Event.runlock :: rest => lockFreeCalls (d - 1) rest
  | d, Event.osrmCall :: rest => decide (d ≤ 0) && lockFreeCalls d rest

/-- The byte values of the polyline test vector
"_p~iF~ps|U_ulLnnqC_mqNvxq`@" used by `TestDecodePolyline`
(min_distance_route.go). -/
def testPolylineBytes : List Nat :=
  [95, 112, 126, 105, 70, 126, 112, 115, 124, 85, 95, 117, 108, 76,
   110, 110, 113, 67, 95, 109, 113, 78, 118, 120, 113, 96, 64]

/-- An oracle modelling an unreachable routing service. -/
def oracleDown : OsrmOracle := fun _ _ => none

/-- The initial simulation state: no calls made, empty trace. -/
def st0 : SimState := ⟨0, []⟩

/-- A one-track collection whose points are (0,0) and (1,1); its bounding
box is lat 0..1, lng 0..1. -/
def routesUnit : List RouteData := [⟨"track.gpx", [⟨0, 0⟩, ⟨1, 1⟩], 0, 0⟩]

/-- An OSRM response whose single route has geometry decoding to the one
point (0, 0) (bytes 63, 63) and a reported length of 500 meters. -/
def respPoint0 : OSRMResponse := ⟨"Ok", [⟨[63, 63], 500⟩]⟩

/-- An oracle that answers the first call with `respPoint0` and fails all
later calls — so every retry of a ladder falls short. -/
def oracleFirstOnly : OsrmOracle := fun n _ => if n = 0 then some respPoint0 else none

/-- A 101-point route (latitudes 0..100 at longitude 0). -/
noncomputable def pts101 : List TrackPoint :=
  List.map (fun i : Nat => (⟨(i : ℝ), 0⟩ : TrackPoint)) (List.range 101)

end WalkAssistant

namespace WalkAssistant

/-- C10: `Distance(p, p)` is exactly 0 and `Distance` is symmetric. -/
theorem haversine_self_zero_and_symm :
    (∀ lat lon : ℝ, haversineDistance lat lon lat lon = 0) ∧
    (∀ lat1 lon1 lat2 lon2 : ℝ,
      haversineDistance lat1 lon1 lat2 lon2 = haversineDistance lat2 lon2 lat1 lon1) := by
  constructor
  · intro lat lon
    simp [haversineDistance]
  · intro lat1 lon1 lat2 lon2
    by_cases h : lat1 = lat2 ∧ lon1 = lon2
    · obtain ⟨h1, h2⟩ := h
      subst h1; subst h2
      rfl
    · have h2 : ¬ (lat2 = lat1 ∧ lon2 = lon1) := by
        intro hc
        exact h ⟨hc.1.symm, hc.2.symm⟩
      simp only [haversineDistance, if_neg h, if_neg h2]
      have hsin : ∀ u v : ℝ,
          Real.sin ((u - v) * (Real.pi / 180) / 2) * Real.sin ((u - v) * (Real.pi / 180) / 2) =
          Real.sin ((v - u) * (Real.pi / 180) / 2) * Real.sin ((v - u) * (Real.pi / 180) / 2) := by
        intro u v
        have hne : (u - v) * (Real.pi / 180) / 2 = -((v - u) * (Real.pi / 180) / 2) := by ring
        rw [hne, Real.sin_neg]
        ring
      have e1 : Real.sin ((lat1 - lat2) * (Real.pi / 180) / 2) =
          -Real.sin ((lat2 - lat1) * (Real.pi / 180) / 2) := by
        rw [show (lat1 - lat2) * (Real.pi / 180) / 2 =
          -((lat2 - lat1) * (Real.pi / 180) / 2) by ring, Real.sin_neg]
      have e2 : Real.sin ((lon1 - lon2) * (Real.pi / 180) / 2) =
          -Real.sin ((lon2 - lon1) * (Real.pi / 180) / 2) := by
        rw [show (lon1 - lon2) * (Real.pi / 180) / 2 =
          -((lon2 - lon1) * (Real.pi / 180) / 2) by ring, Real.sin_neg]
      have ha : Real.sin ((lat1 - lat2) * (Real.pi / 180) / 2) *
            Real.sin ((lat1 - lat2) * (Real.pi / 180) / 2) +
            Real.cos (lat2 * (Real.pi / 180)) * Real.cos (lat1 * (Real.pi / 180)) *
            Real.sin ((lon1 - lon2) * (Real.pi / 180) / 2) *
            Real.sin ((lon1 - lon2) * (Real.pi / 180) / 2) =
          Real.sin ((lat2 - lat1) * (Real.pi / 180) / 2) *
            Real.sin ((lat2 - lat1) * (Real.pi / 180) / 2) +
            Real.cos (lat1 * (Real.pi / 180)) * Real.cos (lat2 * (Real.pi / 180)) *
            Real.sin ((lon2 - lon1) * (Real.pi / 180) / 2) *
            Real.sin ((lon2 - lon1) * (Real.pi / 180) / 2) := by
        rw [e1, e2]
        ring
      rw [ha]

end WalkAssistant

namespace WalkAssistant

/-- C9: decoding the test polyline yields exactly 3 points matching the
reference values within 1e-4 in each coordinate; decoding the empty
string yields an empty sequence. -/
theorem decode_test_vector :
    (decodePolyline testPolylineBytes).length = 3 ∧
    |(decodePolyline testPolylineBytes)[0]!.1 - 38.5| ≤ 1e-4 ∧
    |(decodePolyline testPolylineBytes)[0]!.2 - (-120.2)| ≤ 1e-4 ∧
    |(decodePolyline testPolylineBytes)[1]!.1 - 40.7| ≤ 1e-4 ∧
    |(decodePolyline testPolylineBytes)[1]!.2 - (-120.95)| ≤ 1e-4 ∧
    |(decodePolyline testPolylineBytes)[2]!.1 - 43.252| ≤ 1e-4 ∧
    |(decodePolyline testPolylineBytes)[2]!.2 - (-126.453)| ≤ 1e-4 ∧
    decodePolyline [] = [] := by
  have h : decodePolyline testPolylineBytes =
      [(38.5, -120.2), (40.7, -120.95), (43.252, -126.453)] := by
    norm_num [decodePolyline, decodePolylineChecked, decodePolylineLoop, decodeValueChunk,
      signedChange, testPolylineBytes]
  rw [h]
  norm_num
  rfl

end WalkAssistant

namespace WalkAssistant

theorem decodeValueChunk_ok : ∀ (fuel : Nat) (polyline : List Nat) (index : Nat)
    (result : ℤ) (shift : Nat),
    index ≤ polyline.length → polyline.length - index < fuel →
    ∃ r i2, decodeValueChunk polyline fuel index result shift = some (r, i2) ∧
      index ≤ i2 ∧ i2 ≤ polyline.length ∧ (index < polyline.length → index < i2) := by
  intro fuel
  induction fuel with
  | zero => intro polyline index result shift h1 h2; omega
  | succ n ih =>
    intro polyline index result shift h1 h2
    by_cases hle : polyline.length ≤ index
    · refine ⟨result, index, ?_, le_refl _, h1, ?_⟩
      · simp [decodeValueChunk, hle]
      · omega
    · have hlt : index < polyline.length := by omega
      have hc : polyline[index]? = some polyline[index] := List.getElem?_eq_getElem hlt
      by_cases hb : ((polyline[index] : ℤ) - 63) < 32
      · refine ⟨result + (((polyline[index] : ℤ) - 63) % 32) * 2 ^ shift,
          index + 1, ?_, by omega, by omega, by omega⟩
        simp [decodeValueChunk, hle, hc, hb]
      · obtain ⟨r, i2, heq, hi1, hi2, hi3⟩ :=
          ih polyline (index + 1) (result + (((polyline[index] : ℤ) - 63) % 32) * 2 ^ shift)
            (shift + 5) (by omega) (by omega)
        refine ⟨r, i2, ?_, by omega, hi2, by omega⟩
        simp [decodeValueChunk, hle, hc, hb, heq]

theorem decodePolylineLoop_ok : ∀ (fuel : Nat) (polyline : List Nat) (index : Nat)
    (lat lng : ℤ), index ≤ polyline.length → polyline.length - index < fuel →
    ∃ pts, decodePolylineLoop polyline fuel index lat lng = some pts := by
  intro fuel
  induction fuel with
  | zero => intro polyline index lat lng h1 h2; omega
  | succ n ih =>
    intro polyline index lat lng h1 h2
    by_cases hle : polyline.length ≤ index
    · exact ⟨[], by simp [decodePolylineLoop, hle]⟩
    · have hlt : index < polyline.length := by omega
      obtain ⟨r1, i1, heq1, hi11, hi12, hi13⟩ :=
        decodeValueChunk_ok (polyline.length + 1) polyline index 0 0 h1 (by omega)
      have hlt1 : index < i1 := hi13 hlt
      obtain ⟨r2, i2, heq2, hi21, hi22, hi23⟩ :=
        decodeValueChunk_ok (polyline.length + 1) polyline i1 0 0 hi12 (by omega)
      obtain ⟨rest, hrest⟩ := ih polyline i2 (lat + signedChange r1)
        (lng + signedChange r2) hi22 (by omega)
      refine ⟨(((lat + signedChange r1 : ℤ) : ℚ) / 100000,
        ((lng + signedChange r2 : ℤ) : ℚ) / 100000) :: rest, ?_⟩
      simp [decodePolylineLoop, hle, heq1, heq2, hrest]

/-- C8: for every input byte string the decoder terminates with no
out-of-bounds read (modelled by the `Option`-instrumented byte access
never yielding `none`), returning the points it decoded; the empty string
decodes to the empty sequence. -/
theorem decodePolyline_safe :
    (∀ polyline : List Nat, ∃ pts, decodePolylineChecked polyline = some pts) ∧
    decodePolylineChecked [] = some [] ∧ decodePolyline [] = [] := by
  refine ⟨fun polyline => ?_, by simp [decodePolylineChecked, decodePolylineLoop], rfl⟩
  exact decodePolylineLoop_ok (polyline.length + 1) polyline 0 0 0 (by omega) (by omega)

end WalkAssistant

namespace WalkAssistant

theorem sampleLoop_one : ∀ l : List TrackPoint, sampleLoop l 1 = l := by
  intro l
  induction l with
  | nil => simp [sampleLoop]
  | cons p rest ih => simp [sampleLoop, ih]

theorem sampleLoop_length : ∀ (l : List TrackPoint) (step : Nat), 1 ≤ step →
    (sampleLoop l step).length = (l.length + step - 1) / step := by
  intro l step h
  induction l, step using sampleLoop.induct with
  | case1 step =>
    simp only [sampleLoop, List.length_nil, Nat.zero_add]
    exact (Nat.div_eq_of_lt (by omega)).symm
  | case2 p rest step ih =>
    rw [sampleLoop]
    simp only [List.length_cons]
    rw [ih h, List.length_drop]
    by_cases hn : step - 1 ≤ rest.length
    · have e1 : rest.length - (step - 1) + step - 1 = rest.length := by omega
      have e2 : rest.length + 1 + step - 1 = rest.length + step := by omega
      rw [e1, e2, Nat.add_div_right _ (by omega)]
    · have e1 : rest.length - (step - 1) + step - 1 = step - 1 := by omega
      have e2 : rest.length + 1 + step - 1 = rest.length + step := by omega
      rw [e1, e2, Nat.add_div_right _ (by omega)]
      rw [Nat.div_eq_of_lt (by omega), Nat.div_eq_of_lt (by omega)]

end WalkAssistant

namespace WalkAssistant

open scoped Classical

theorem getLast?_eq_getLastD {α : Type} (l : List α) (d : α) (h : l ≠ []) :
    l.getLast? = some (l.getLastD d) := by
  have hs := List.getLast?_isSome.2 h
  obtain ⟨y, hy⟩ := Option.isSome_iff_exists.1 hs
  rw [hy, List.getLastD_eq_getLast?, hy]
  rfl

theorem downsample_small (pts : List TrackPoint) (h : pts.length ≤ 100) :
    downsamplePoints pts = pts := by
  rw [downsamplePoints, if_neg (by omega)]

theorem downsample_big (pts : List TrackPoint) (h : 100 < pts.length) :
    downsamplePoints pts =
      if sampleLoop pts (pts.length / 100) ≠ [] ∧
          (sampleLoop pts (pts.length / 100)).getLastD default ≠ pts.getLastD default
      then sampleLoop pts (pts.length / 100) ++ [pts.getLastD default]
      else sampleLoop pts (pts.length / 100) := by
  have hstep : (if pts.length / 100 < 1 then 1 else pts.length / 100) = pts.length / 100 :=
    if_neg (by omega)
  simp only [downsamplePoints]
  rw [if_pos h, hstep]

theorem downsample_getLast (pts : List TrackPoint) (hne : pts ≠ []) :
    (downsamplePoints pts).getLast? = pts.getLast? := by
  by_cases h : 100 < pts.length
  · rw [downsample_big pts h]
    have hsne : sampleLoop pts (pts.length / 100) ≠ [] := by
      cases pts with
      | nil => simp at hne
      | cons p rest => rw [sampleLoop]; simp
    by_cases hif : sampleLoop pts (pts.length / 100) ≠ [] ∧
        (sampleLoop pts (pts.length / 100)).getLastD default ≠ pts.getLastD default
    · rw [if_pos hif, List.getLast?_concat, getLast?_eq_getLastD pts default hne]
    · rw [if_neg hif]
      push_neg at hif
      rw [getLast?_eq_getLastD _ default hsne, getLast?_eq_getLastD pts default hne,
        hif hsne]
  · rw [downsample_small pts (by omega)]

theorem downsample_head (p : TrackPoint) (rest : List TrackPoint) :
    (downsamplePoints (p :: rest)).head? = some p := by
  by_cases h : 100 < (p :: rest).length
  · rw [downsample_big _ h]
    by_cases hif : sampleLoop (p :: rest) ((p :: rest).length / 100) ≠ [] ∧
        (sampleLoop (p :: rest) ((p :: rest).length / 100)).getLastD default ≠
          (p :: rest).getLastD default
    · rw [if_pos hif, sampleLoop, List.cons_append]
      rfl
    · rw [if_neg hif, sampleLoop]
      rfl
  · rw [downsample_small _ (by omega)]
    rfl

theorem downsample_cap (p : TrackPoint) (rest : List TrackPoint) :
    (downsamplePoints (p :: rest)).length ≤ 199 := by
  by_cases h : 100 < (p :: rest).length
  · rw [downsample_big _ h]
    have hlen := sampleLoop_length (p :: rest) ((p :: rest).length / 100) (by omega)
    by_cases hif : sampleLoop (p :: rest) ((p :: rest).length / 100) ≠ [] ∧
        (sampleLoop (p :: rest) ((p :: rest).length / 100)).getLastD default ≠
          (p :: rest).getLastD default
    · -- the last point was re-appended; here the stride is at least 2, because a
      -- stride of 1 keeps the list unchanged and the last points then agree
      rw [if_pos hif]
      have hk2 : 2 ≤ (p :: rest).length / 100 := by
        by_contra hk
        have hk1 : (p :: rest).length / 100 = 1 := by omega
        rw [hk1, sampleLoop_one] at hif
        exact hif.2 rfl
      rw [List.length_append, hlen]
      have hdiv : ((p :: rest).length + (p :: rest).length / 100 - 1) /
          ((p :: rest).length / 100) < 199 := by
        rw [Nat.div_lt_iff_lt_mul (by omega)]
        omega
      simp only [List.length_singleton]
      omega
    · rw [if_neg hif, hlen]
      by_cases hk : (p :: rest).length / 100 = 1
      · rw [hk]
        omega
      · have hdiv : ((p :: rest).length + (p :: rest).length / 100 - 1) /
            ((p :: rest).length / 100) < 199 := by
          rw [Nat.div_lt_iff_lt_mul (by omega)]
          omega
        omega
  · rw [downsample_small _ (by omega)]
    omega

end WalkAssistant

namespace WalkAssistant

open scoped Classical

/-- C3 counterexample: a 101-point input is passed through with all 101
points (stride 101/100 = 1), so the claimed hard cap of 100 waypoints
does not hold. -/
theorem downsample_cap100_cex : ¬ ((downsamplePoints pts101).length ≤ 100) := by
  intro hle
  have h101 : pts101.length = 101 := by
    rw [pts101, List.length_map, List.length_range]
  have hbig : 100 < pts101.length := by omega
  rw [downsample_big pts101 hbig, show pts101.length / 100 = 1 by omega,
    sampleLoop_one] at hle
  rw [if_neg (by simp)] at hle
  omega

/-- C3 amended: the downsampling keeps the first and the last point and
leaves inputs of at most 100 points unchanged, but the output can exceed
100 points; the provable bound is 199. -/
theorem downsamplePoints_spec :
    ∀ (p : TrackPoint) (rest : List TrackPoint),
      ((p :: rest).length ≤ 100 → downsamplePoints (p :: rest) = p :: rest) ∧
      (downsamplePoints (p :: rest)).head? = some p ∧
      (downsamplePoints (p :: rest)).getLast? = (p :: rest).getLast? ∧
      (downsamplePoints (p :: rest)).length ≤ 199 := by
  intro p rest
  exact ⟨fun h => downsample_small _ h, downsample_head p rest,
    downsample_getLast _ (by simp), downsample_cap p rest⟩

theorem downsamplePoints_spec_witness :
    ([⟨0, 0⟩, ⟨1, 1⟩] : List TrackPoint).length ≤ 100 ∧
    downsamplePoints [⟨0, 0⟩, ⟨1, 1⟩] = [⟨0, 0⟩, ⟨1, 1⟩] ∧
    (downsamplePoints [⟨0, 0⟩, ⟨1, 1⟩]).head? = some ⟨0, 0⟩ := by
  refine ⟨by simp, (downsamplePoints_spec ⟨0, 0⟩ [⟨1, 1⟩]).1 (by simp),
    (downsamplePoints_spec ⟨0, 0⟩ [⟨1, 1⟩]).2.1⟩

theorem zigzagPoints_length (p1 p2 : TrackPoint) (n : ℤ) :
    (zigzagPoints p1 p2 n).length =
      if 0 < Real.sqrt ((p2.Latitude - p1.Latitude) * (p2.Latitude - p1.Latitude) +
          (p2.Longitude - p1.Longitude) * (p2.Longitude - p1.Longitude))
      then n.toNat else 0 := by
  simp only [zigzagPoints]
  split_ifs <;> simp

theorem extendLoop_length (n : ℤ) : ∀ l : List TrackPoint,
    (extendLoop n l).length =
      l.length + ((l.zip l.tail).map fun pq => (zigzagPoints pq.1 pq.2 n).length).sum := by
  intro l
  induction l with
  | nil => simp [extendLoop]
  | cons p tl ih =>
    cases tl with
    | nil => simp [extendLoop]
    | cons p2 rest =>
      rw [extendLoop]
      simp only [List.length_append, List.length_cons, List.tail_cons, List.zip_cons_cons,
        List.map_cons, List.sum_cons, ih]
      omega

theorem one_le_numZigzags (f : ℝ) : 1 ≤ numZigzagsOf f := by
  simp only [numZigzagsOf]
  split_ifs with h
  · omega
  · omega

end WalkAssistant

namespace WalkAssistant

open scoped Classical

/-- C6 amended: `extendRoute` returns the input unchanged when the factor
is at most 1 or the route has at most 2 points; otherwise it inserts
`max(1, trunc(f) - 1)` alternating midpoint-offset points between every
consecutive pair of distinct points (none between coincident points), so
the point count strictly increases whenever some consecutive pair is
distinct. -/
theorem extendRoute_spec :
    ∀ (points : List TrackPoint) (f : ℝ),
      (points.length ≤ 2 ∨ f ≤ 1 → extendRoute points f = points) ∧
      (2 < points.length → 1 < f →
        (extendRoute points f).length = points.length +
          ((points.zip points.tail).map fun pq =>
            if 0 < Real.sqrt ((pq.2.Latitude - pq.1.Latitude) * (pq.2.Latitude - pq.1.Latitude) +
                (pq.2.Longitude - pq.1.Longitude) * (pq.2.Longitude - pq.1.Longitude))
            then (numZigzagsOf f).toNat else 0).sum ∧
        1 ≤ numZigzagsOf f ∧
        ((∃ pq ∈ points.zip points.tail,
            pq.1.Latitude ≠ pq.2.Latitude ∨ pq.1.Longitude ≠ pq.2.Longitude) →
          points.length < (extendRoute points f).length)) := by
  intro points f
  constructor
  · intro h
    rw [extendRoute, if_pos h]
  · intro hlen hf
    have hguard : ¬ (points.length ≤ 2 ∨ f ≤ 1) := by
      push_neg
      exact ⟨by omega, by linarith⟩
    have hform : (extendRoute points f).length = points.length +
        ((points.zip points.tail).map fun pq =>
          if 0 < Real.sqrt ((pq.2.Latitude - pq.1.Latitude) * (pq.2.Latitude - pq.1.Latitude) +
              (pq.2.Longitude - pq.1.Longitude) * (pq.2.Longitude - pq.1.Longitude))
          then (numZigzagsOf f).toNat else 0).sum := by
      rw [extendRoute, if_neg hguard, extendLoop_length]
      congr 1
      apply congrArg
      apply List.map_congr_left
      intro pq _
      exact zigzagPoints_length pq.1 pq.2 (numZigzagsOf f)
    refine ⟨hform, one_le_numZigzags f, ?_⟩
    rintro ⟨pq, hmem, hne⟩
    rw [hform]
    have hpos : 0 < Real.sqrt ((pq.2.Latitude - pq.1.Latitude) * (pq.2.Latitude - pq.1.Latitude) +
        (pq.2.Longitude - pq.1.Longitude) * (pq.2.Longitude - pq.1.Longitude)) := by
      apply Real.sqrt_pos.mpr
      rcases hne with hne | hne
      · have h1 : 0 < (pq.2.Latitude - pq.1.Latitude) * (pq.2.Latitude - pq.1.Latitude) :=
          mul_self_pos.mpr (sub_ne_zero.mpr fun hx => hne hx.symm)
        nlinarith [mul_self_nonneg (pq.2.Longitude - pq.1.Longitude)]
      · have h1 : 0 < (pq.2.Longitude - pq.1.Longitude) * (pq.2.Longitude - pq.1.Longitude) :=
          mul_self_pos.mpr (sub_ne_zero.mpr fun hx => hne hx.symm)
        nlinarith [mul_self_nonneg (pq.2.Latitude - pq.1.Latitude)]
    have hval : (numZigzagsOf f).toNat ∈ (points.zip points.tail).map fun pq =>
        if 0 < Real.sqrt ((pq.2.Latitude - pq.1.Latitude) * (pq.2.Latitude - pq.1.Latitude) +
            (pq.2.Longitude - pq.1.Longitude) * (pq.2.Longitude - pq.1.Longitude))
        then (numZigzagsOf f).toNat else 0 := by
      refine List.mem_map.mpr ⟨pq, hmem, ?_⟩
      simp [hpos]
    have hsum := List.single_le_sum (fun (x : ℕ) _ => Nat.zero_le x) _ hval
    have hz1 : 1 ≤ (numZigzagsOf f).toNat := by
      have := one_le_numZigzags f
      omega
    omega

/-- C6 counterexample: for the 2-point route below and factor 2 > 1,
`extendRoute` returns the input unchanged, so neither the point count nor
the path length strictly increases. -/
theorem extendRoute_increase_cex :
    (1 : ℝ) < 2 ∧
    extendRoute [⟨0, 0⟩, ⟨0, 1⟩] 2 = [⟨0, 0⟩, ⟨0, 1⟩] ∧
    ¬ (([⟨0, 0⟩, ⟨0, 1⟩] : List TrackPoint).length <
        (extendRoute [⟨0, 0⟩, ⟨0, 1⟩] 2).length) := by
  have h : extendRoute [⟨0, 0⟩, ⟨0, 1⟩] 2 = [⟨0, 0⟩, ⟨0, 1⟩] := by
    rw [extendRoute, if_pos (Or.inl (by simp))]
  refine ⟨by norm_num, h, ?_⟩
  rw [h]
  omega

theorem extendRoute_spec_witness :
    2 < ([⟨0, 0⟩, ⟨0, 1⟩, ⟨1, 1⟩] : List TrackPoint).length ∧ (1 : ℝ) < 2 ∧
    (extendRoute [⟨0, 0⟩, ⟨0, 1⟩, ⟨1, 1⟩] 2).length = 5 ∧
    ([⟨0, 0⟩, ⟨0, 1⟩, ⟨1, 1⟩] : List TrackPoint).length <
      (extendRoute [⟨0, 0⟩, ⟨0, 1⟩, ⟨1, 1⟩] 2).length := by
  have h := (extendRoute_spec [⟨0, 0⟩, ⟨0, 1⟩, ⟨1, 1⟩] 2).2 (by simp) (by norm_num)
  have hz : numZigzagsOf 2 = 1 := by
    rw [numZigzagsOf, show ((2 : ℝ)) = ((2 : ℤ) : ℝ) by norm_num, Int.floor_intCast]
    norm_num
  have h5 : (extendRoute [⟨0, 0⟩, ⟨0, 1⟩, ⟨1, 1⟩] 2).length = 5 := by
    rw [h.1, hz]
    norm_num [Real.sqrt_one]
  exact ⟨by simp, by norm_num, h5, by rw [h5]; simp⟩

end WalkAssistant

namespace WalkAssistant

open scoped Classical

theorem ite_len_calc (l : List TrackPoint) :
    (if 2 ≤ l.length then calculateRouteDistance l else 0) = calculateRouteDistance l := by
  split_ifs with h
  · rfl
  · rw [calculateRouteDistance, if_pos (by omega)]

/-- C5: on a successful conform call the returned distance is computed by
`conformedDistance` from the decoded points and the response's routes, and
`conformedDistance` is the recomputed pairwise length, falling back to the
reported length when the recomputed one is under 0.1 km, and to the
bounding-box estimate when the reported one is under 0.1 km as well. -/
theorem conformedDistance_spec :
    (∀ (oracle : OsrmOracle) (points : List TrackPoint) (st : SimState)
        (r : SuggestedRoute) (st2 : SimState),
        getRouteFollowingStreets oracle points st = (some r, st2) →
        ∃ osrmRoutes : List OSRMRoute, osrmRoutes ≠ [] ∧
          r.Distance = conformedDistance r.Points osrmRoutes) ∧
    (∀ (trackPoints : List TrackPoint) (osrmRoutes : List OSRMRoute), osrmRoutes ≠ [] →
      (0.1 ≤ calculateRouteDistance trackPoints →
        conformedDistance trackPoints osrmRoutes = calculateRouteDistance trackPoints) ∧
      (calculateRouteDistance trackPoints < 0.1 →
        0.1 ≤ (osrmRoutes.headD default).Distance / 1000 →
        conformedDistance trackPoints osrmRoutes =
          (osrmRoutes.headD default).Distance / 1000) ∧
      (calculateRouteDistance trackPoints < 0.1 →
        (osrmRoutes.headD default).Distance / 1000 < 0.1 →
        conformedDistance trackPoints osrmRoutes = estimateDistanceFromBBox trackPoints)) := by
  constructor
  · intro oracle points st r st2 h
    cases ho : oracle st.calls (downsamplePoints points) with
    | none =>
      rw [getRouteFollowingStreets] at h
      simp [ho] at h
    | some resp =>
      rw [getRouteFollowingStreets] at h
      simp only [ho] at h
      by_cases hc : resp.Code ≠ "Ok" ∨ resp.Routes.length = 0
      · rw [if_pos hc] at h
        simp at h
      · rw [if_neg hc] at h
        push_neg at hc
        refine ⟨resp.Routes, ?_, ?_⟩
        · intro hnil
          exact hc.2 (by rw [hnil]; rfl)
        · have hr : r = ⟨(decodePolyline (resp.Routes.head?.getD default).Geometry).map
              fun point => ⟨(point.1 : ℝ), (point.2 : ℝ)⟩,
              conformedDistance ((decodePolyline (resp.Routes.head?.getD default).Geometry).map
                fun point => ⟨(point.1 : ℝ), (point.2 : ℝ)⟩) resp.Routes, true⟩ := by
            have hf := congrArg Prod.fst h
            simp at hf
            exact hf.symm
          rw [hr]
  · intro trackPoints osrmRoutes hne
    have hlen : 0 < osrmRoutes.length := by
      cases osrmRoutes with
      | nil => exact absurd rfl hne
      | cons a t => simp
    refine ⟨?_, ?_, ?_⟩
    · intro h01
      rw [conformedDistance]
      simp only [ite_len_calc]
      rw [if_neg]
      intro hc
      linarith [hc.1]
    · intro h01 hrep
      rw [conformedDistance]
      simp only [ite_len_calc]
      rw [if_pos ⟨h01, hlen⟩, if_neg (by linarith)]
    · intro h01 hrep
      rw [conformedDistance]
      simp only [ite_len_calc]
      rw [if_pos ⟨h01, hlen⟩, if_pos hrep]

theorem conformedDistance_spec_witness :
    ([(⟨[63, 63], (500 : ℝ)⟩ : OSRMRoute)] : List OSRMRoute) ≠ [] ∧
    calculateRouteDistance [⟨0, 0⟩] < 0.1 ∧
    (0.1 : ℝ) ≤ (([(⟨[63, 63], (500 : ℝ)⟩ : OSRMRoute)] :
      List OSRMRoute).headD default).Distance / 1000 ∧
    conformedDistance [⟨0, 0⟩] [⟨[63, 63], 500⟩] =
      (([(⟨[63, 63], (500 : ℝ)⟩ : OSRMRoute)] :
        List OSRMRoute).headD default).Distance / 1000 := by
  have hne : ([(⟨[63, 63], (500 : ℝ)⟩ : OSRMRoute)] : List OSRMRoute) ≠ [] := by simp
  have hcalc : calculateRouteDistance [⟨0, 0⟩] < 0.1 := by
    rw [calculateRouteDistance, if_pos (by simp)]
    norm_num
  have hrep : (0.1 : ℝ) ≤ (([(⟨[63, 63], (500 : ℝ)⟩ : OSRMRoute)] :
      List OSRMRoute).headD default).Distance / 1000 := by
    norm_num [List.headD]
  exact ⟨hne, hcalc, hrep, ((conformedDistance_spec.2 _ _ hne).2.1) hcalc hrep⟩

end WalkAssistant

namespace WalkAssistant

open scoped Classical

/-- C4: with `minDistance > 0` and `followStreets`, the request is
dispatched to `generateRouteWithMinDistance`, which never receives
`maxDistance`; two such requests differing only in `maxDistance` produce
identical results. -/
theorem suggest_ignores_maxDistance :
    ∀ (minDistance max1 max2 : ℝ) (routes : List RouteData) (oracle : OsrmOracle)
      (r1 r2 r3 r4 : ℝ) (st : SimState), 0 < minDistance →
      suggestRoutes minDistance max1 true routes oracle r1 r2 r3 r4 st =
        suggestRoutes minDistance max2 true routes oracle r1 r2 r3 r4 st := by
  intro minD max1 max2 routes oracle r1 r2 r3 r4 st h
  rw [suggestRoutes, if_pos ⟨h, rfl⟩, suggestRoutes, if_pos ⟨h, rfl⟩]

theorem suggest_ignores_maxDistance_witness :
    suggestRoutes 1 5 true [] oracleDown 0 0 0 0 st0 =
      suggestRoutes 1 9 true [] oracleDown 0 0 0 0 st0 :=
  suggest_ignores_maxDistance 1 5 9 [] oracleDown 0 0 0 0 st0 (by norm_num)

theorem genSuggested_empty (minD maxD : ℝ) (fs : Bool) (oracle : OsrmOracle)
    (r1 r2 r3 r4 : ℝ) (st : SimState) :
    (generateSuggestedRoutes minD maxD fs [] oracle r1 r2 r3 r4 st).1 = [] := by
  simp [generateSuggestedRoutes, generateSuggestedRoutesBody, withRLock]

theorem genMin_singleton : ∀ (minD : ℝ) (routes : List RouteData) (oracle : OsrmOracle)
    (st : SimState), ((generateRouteWithMinDistance minD routes oracle st).1).length = 1 := by
  intro minD routes oracle st
  simp only [generateRouteWithMinDistance, withRLock]
  repeat' split
  all_goals simp

end WalkAssistant

namespace WalkAssistant

open scoped Classical

/-- C1 counterexample: with an empty track collection, a request that is
not dispatched to the min-distance generator (here `minDistance = 0`,
`followStreets = false`) returns the empty suggestion list — no default
anchor, no best-effort route. -/
theorem no_tracks_empty_cex :
    (generateSuggestedRoutes 0 0 false [] oracleDown 0 0 0 0 st0).1 = [] :=
  genSuggested_empty 0 0 false oracleDown 0 0 0 0 st0

/-- C1 amended: only a request with `minDistance > 0` and `followStreets`
reaches `generateRouteWithMinDistance`, which anchors on the fixed default
location (Berlin, 52.52/13.405) when the scan leaves `minLat = maxLat = 0`
— in particular when no tracks exist — and always returns exactly one
best-effort route; every other request against an empty track collection
returns no suggestions. -/
theorem default_anchor_spec :
    (∀ (minD maxD : ℝ) (fs : Bool) (oracle : OsrmOracle) (r1 r2 r3 r4 : ℝ)
        (st : SimState), ¬ (0 < minD ∧ fs = true) →
      (suggestRoutes minD maxD fs [] oracle r1 r2 r3 r4 st).1 = []) ∧
    (∀ (minD maxD : ℝ) (oracle : OsrmOracle) (r1 r2 r3 r4 : ℝ) (st : SimState),
      0 < minD →
      suggestRoutes minD maxD true [] oracle r1 r2 r3 r4 st =
        generateRouteWithMinDistance minD [] oracle st) ∧
    genMinCenter [] = (52.52, 13.405) ∧
    (∀ (minD : ℝ) (routes : List RouteData) (oracle : OsrmOracle) (st : SimState),
      ((generateRouteWithMinDistance minD routes oracle st).1).length = 1) := by
  refine ⟨?_, ?_, ?_, genMin_singleton⟩
  · intro minD maxD fs oracle r1 r2 r3 r4 st h
    rw [suggestRoutes, if_neg h]
    exact genSuggested_empty minD maxD fs oracle r1 r2 r3 r4 st
  · intro minD maxD oracle r1 r2 r3 r4 st h
    rw [suggestRoutes, if_pos ⟨h, rfl⟩]
  · simp [genMinCenter]

theorem default_anchor_spec_witness :
    (suggestRoutes 0 0 true [] oracleDown 0 0 0 0 st0).1 = [] ∧
    suggestRoutes 1 7 true [] oracleDown 0 0 0 0 st0 =
      generateRouteWithMinDistance 1 [] oracleDown st0 ∧
    ((generateRouteWithMinDistance 1 [] oracleDown st0).1).length = 1 :=
  ⟨default_anchor_spec.1 0 0 true oracleDown 0 0 0 0 st0 (by norm_num),
   default_anchor_spec.2.1 1 7 oracleDown 0 0 0 0 st0 (by norm_num),
   default_anchor_spec.2.2.2 1 [] oracleDown st0⟩

end WalkAssistant

namespace WalkAssistant

open scoped Classical

theorem netDepth_append : ∀ xs ys : List Event, netDepth (xs ++ ys) = netDepth xs + netDepth ys := by
  intro xs ys
  induction xs with
  | nil => simp [netDepth]
  | cons e rest ih => cases e <;> simp [netDepth, ih] <;> ring

theorem heldFrom_append : ∀ (xs ys : List Event) (d : ℤ),
    heldFrom d (xs ++ ys) = (heldFrom d xs && heldFrom (d + netDepth xs) ys) := by
  intro xs
  induction xs with
  | nil => intro ys d; simp [heldFrom, netDepth]
  | cons e rest ih =>
    intro ys d
    cases e
    · rw [List.cons_append, heldFrom, heldFrom, ih]
      rw [netDepth, show d + (netDepth rest + 1) = d + 1 + netDepth rest by ring]
    · rw [List.cons_append, heldFrom, heldFrom, ih]
      rw [netDepth, show d + (netDepth rest - 1) = d - 1 + netDepth rest by ring]
    · rw [List.cons_append, heldFrom, heldFrom, ih, netDepth, Bool.and_assoc]

theorem getRoute_events : ∀ (oracle : OsrmOracle) (pts : List TrackPoint) (st : SimState),
    ((getRouteFollowingStreets oracle pts st).2).events = st.events ++ [Event.osrmCall] := by
  intro oracle pts st
  simp only [getRouteFollowingStreets]
  repeat' split
  all_goals rfl

/-- Lock invariant preservation across one routing-service call: the trace
stays safe and the held depth stays 1. -/
theorem step_getRoute (oracle : OsrmOracle) (pts : List TrackPoint) (st : SimState)
    (hH : heldFrom 0 st.events = true) (hD : netDepth st.events = 1) :
    heldFrom 0 ((getRouteFollowingStreets oracle pts st).2).events = true ∧
    netDepth ((getRouteFollowingStreets oracle pts st).2).events = 1 := by
  rw [getRoute_events, heldFrom_append, netDepth_append, hD]
  simp [heldFrom, netDepth, hH, hD]

end WalkAssistant

namespace WalkAssistant

open scoped Classical

theorem fallbackScale_J (maxD sd : ℝ) (sr : SuggestedRoute) (st : SimState)
    (hH : heldFrom 0 st.events = true) (hD : netDepth st.events = 1) :
    heldFrom 0 ((maxRetryFallbackScale maxD sd sr st).2).events = true ∧
    netDepth ((maxRetryFallbackScale maxD sd sr st).2).events = 1 := by
  exact ⟨hH, hD⟩

theorem rectAttempt_J (maxD sd cLat cLng : ℝ) (sr : SuggestedRoute) (oracle : OsrmOracle)
    (st : SimState) (hH : heldFrom 0 st.events = true) (hD : netDepth st.events = 1) :
    heldFrom 0 ((maxRetryRectAttempt maxD sd cLat cLng sr oracle st).2).events = true ∧
    netDepth ((maxRetryRectAttempt maxD sd cLat cLng sr oracle st).2).events = 1 := by
  simp only [maxRetryRectAttempt]
  split
  next simpleRoute st1 heq =>
    have e1 := congrArg Prod.snd heq
    dsimp only at e1
    have h1 : heldFrom 0 st1.events = true ∧ netDepth st1.events = 1 := by
      rw [← e1]
      exact step_getRoute oracle _ st hH hD
    split
    · exact h1
    · exact fallbackScale_J maxD sd sr st1 h1.1 h1.2
  next st1 heq =>
    have e1 := congrArg Prod.snd heq
    dsimp only at e1
    have h1 : heldFrom 0 st1.events = true ∧ netDepth st1.events = 1 := by
      rw [← e1]
      exact step_getRoute oracle _ st hH hD
    exact fallbackScale_J maxD sd sr st1 h1.1 h1.2

end WalkAssistant

namespace WalkAssistant

open scoped Classical

theorem secondAttempt_J (maxD sd pc cLat cLng : ℝ) (perimeter : List TrackPoint)
    (sr : SuggestedRoute) (oracle : OsrmOracle) (st : SimState)
    (hH : heldFrom 0 st.events = true) (hD : netDepth st.events = 1) :
    heldFrom 0 ((maxRetrySecondAttempt maxD sd pc cLat cLng perimeter sr oracle st).2).events =
      true ∧
    netDepth ((maxRetrySecondAttempt maxD sd pc cLat cLng perimeter sr oracle st).2).events = 1 := by
  simp only [maxRetrySecondAttempt]
  split
  next nsr st1 heq =>
    have e1 := congrArg Prod.snd heq
    dsimp only at e1
    have h1 : heldFrom 0 st1.events = true ∧ netDepth st1.events = 1 := by
      rw [← e1]
      exact step_getRoute oracle _ st hH hD
    split
    · exact h1
    · exact rectAttempt_J maxD sd cLat cLng sr oracle st1 h1.1 h1.2
  next st1 heq =>
    have e1 := congrArg Prod.snd heq
    dsimp only at e1
    have h1 : heldFrom 0 st1.events = true ∧ netDepth st1.events = 1 := by
      rw [← e1]
      exact step_getRoute oracle _ st hH hD
    exact rectAttempt_J maxD sd cLat cLng sr oracle st1 h1.1 h1.2

theorem maxRetryBranch_J (maxD sd : ℝ) (perimeter : List TrackPoint) (sr : SuggestedRoute)
    (oracle : OsrmOracle) (st : SimState)
    (hH : heldFrom 0 st.events = true) (hD : netDepth st.events = 1) :
    heldFrom 0 ((maxRetryBranch maxD sd perimeter sr oracle st).2).events = true ∧
    netDepth ((maxRetryBranch maxD sd perimeter sr oracle st).2).events = 1 := by
  simp only [maxRetryBranch]
  split
  · split
    next nsr st1 heq =>
      have e1 := congrArg Prod.snd heq
      dsimp only at e1
      have h1 : heldFrom 0 st1.events = true ∧ netDepth st1.events = 1 := by
        rw [← e1]
        exact step_getRoute oracle _ st hH hD
      split
      · exact h1
      · exact secondAttempt_J maxD sd _ _ _ perimeter sr oracle st1 h1.1 h1.2
    next st1 heq =>
      have e1 := congrArg Prod.snd heq
      dsimp only at e1
      have h1 : heldFrom 0 st1.events = true ∧ netDepth st1.events = 1 := by
        rw [← e1]
        exact step_getRoute oracle _ st hH hD
      exact fallbackScale_J maxD sd sr st1 h1.1 h1.2
  · exact fallbackScale_J maxD sd sr st hH hD

theorem finalFallback_J (minD sd : ℝ) (sr : SuggestedRoute) (st : SimState)
    (hH : heldFrom 0 st.events = true) (hD : netDepth st.events = 1) :
    heldFrom 0 ((minRetryFinalFallback minD sd sr st).2).events = true ∧
    netDepth ((minRetryFinalFallback minD sd sr st).2).events = 1 := by
  exact ⟨hH, hD⟩

theorem largeSimple_J (minD sd cLat cLng : ℝ) (sr : SuggestedRoute) (oracle : OsrmOracle)
    (st : SimState) (hH : heldFrom 0 st.events = true) (hD : netDepth st.events = 1) :
    heldFrom 0 ((minRetryLargeSimple minD sd cLat cLng sr oracle st).2).events = true ∧
    netDepth ((minRetryLargeSimple minD sd cLat cLng sr oracle st).2).events = 1 := by
  simp only [minRetryLargeSimple]
  split
  next nsr st1 heq =>
    have e1 := congrArg Prod.snd heq
    dsimp only at e1
    have h1 : heldFrom 0 st1.events = true ∧ netDepth st1.events = 1 := by
      rw [← e1]
      exact step_getRoute oracle _ st hH hD
    split
    · exact h1
    · exact finalFallback_J minD sd sr st1 h1.1 h1.2
  next st1 heq =>
    have e1 := congrArg Prod.snd heq
    dsimp only at e1
    have h1 : heldFrom 0 st1.events = true ∧ netDepth st1.events = 1 := by
      rw [← e1]
      exact step_getRoute oracle _ st hH hD
    exact finalFallback_J minD sd sr st1 h1.1 h1.2

theorem minSimple_J (minD sd cLat cLng : ℝ) (sr : SuggestedRoute) (oracle : OsrmOracle)
    (st : SimState) (hH : heldFrom 0 st.events = true) (hD : netDepth st.events = 1) :
    heldFrom 0 ((minRetrySimple minD sd cLat cLng sr oracle st).2).events = true ∧
    netDepth ((minRetrySimple minD sd cLat cLng sr oracle st).2).events = 1 := by
  simp only [minRetrySimple]
  split
  next nsr st1 heq =>
    have e1 := congrArg Prod.snd heq
    dsimp only at e1
    have h1 : heldFrom 0 st1.events = true ∧ netDepth st1.events = 1 := by
      rw [← e1]
      exact step_getRoute oracle _ st hH hD
    split
    · exact h1
    · exact largeSimple_J minD sd cLat cLng sr oracle st1 h1.1 h1.2
  next st1 heq =>
    have e1 := congrArg Prod.snd heq
    dsimp only at e1
    have h1 : heldFrom 0 st1.events = true ∧ netDepth st1.events = 1 := by
      rw [← e1]
      exact step_getRoute oracle _ st hH hD
    exact largeSimple_J minD sd cLat cLng sr oracle st1 h1.1 h1.2

theorem largerPolygon_J (minD sd cLat cLng off : ℝ) (sr : SuggestedRoute)
    (oracle : OsrmOracle) (st : SimState)
    (hH : heldFrom 0 st.events = true) (hD : netDepth st.events = 1) :
    heldFrom 0 ((minRetryLargerPolygon minD sd cLat cLng off sr oracle st).2).events = true ∧
    netDepth ((minRetryLargerPolygon minD sd cLat cLng off sr oracle st).2).events = 1 := by
  simp only [minRetryLargerPolygon]
  split
  next nsr st1 heq =>
    have e1 := congrArg Prod.snd heq
    dsimp only at e1
    have h1 : heldFrom 0 st1.events = true ∧ netDepth st1.events = 1 := by
      rw [← e1]
      exact step_getRoute oracle _ st hH hD
    split
    · exact h1
    · exact minSimple_J minD sd cLat cLng sr oracle st1 h1.1 h1.2
  next st1 heq =>
    have e1 := congrArg Prod.snd heq
    dsimp only at e1
    have h1 : heldFrom 0 st1.events = true ∧ netDepth st1.events = 1 := by
      rw [← e1]
      exact step_getRoute oracle _ st hH hD
    exact minSimple_J minD sd cLat cLng sr oracle st1 h1.1 h1.2

end WalkAssistant

namespace WalkAssistant

open scoped Classical

theorem minRetryBranch_J (minD sd : ℝ) (perimeter : List TrackPoint)
    (routes : List RouteData) (sr : SuggestedRoute) (oracle : OsrmOracle) (st : SimState)
    (hH : heldFrom 0 st.events = true) (hD : netDepth st.events = 1) :
    heldFrom 0 ((minRetryBranch minD sd perimeter routes sr oracle st).2).events = true ∧
    netDepth ((minRetryBranch minD sd perimeter routes sr oracle st).2).events = 1 := by
  simp only [minRetryBranch]
  have hH2 : heldFrom 0 ((st.events ++ [Event.rlock]) ++ [Event.runlock]) = true := by
    rw [heldFrom_append, heldFrom_append]
    simp [heldFrom, netDepth_append, netDepth, hH]
  have hD2 : netDepth ((st.events ++ [Event.rlock]) ++ [Event.runlock]) = 1 := by
    rw [netDepth_append, netDepth_append]
    simp [netDepth, hD]
  split
  next nsr st1 heq =>
    have e1 := congrArg Prod.snd heq
    dsimp only at e1
    have h1 : heldFrom 0 st1.events = true ∧ netDepth st1.events = 1 := by
      rw [← e1]
      exact step_getRoute oracle _ _ hH2 hD2
    split
    · exact h1
    · exact largerPolygon_J minD sd _ _ _ sr oracle st1 h1.1 h1.2
  next st1 heq =>
    have e1 := congrArg Prod.snd heq
    dsimp only at e1
    have h1 : heldFrom 0 st1.events = true ∧ netDepth st1.events = 1 := by
      rw [← e1]
      exact step_getRoute oracle _ _ hH2 hD2
    exact largerPolygon_J minD sd _ _ _ sr oracle st1 h1.1 h1.2

end WalkAssistant

namespace WalkAssistant

open scoped Classical

theorem applyStreetRoute_J (minD maxD mLat xLat mLng xLng : ℝ)
    (perimeter : List TrackPoint) (routes : List RouteData)
    (sr sugg : SuggestedRoute) (oracle : OsrmOracle) (st : SimState)
    (hH : heldFrom 0 st.events = true) (hD : netDepth st.events = 1) :
    heldFrom 0 ((applyStreetRoute minD maxD mLat xLat mLng xLng perimeter routes sr sugg
      oracle st).2).events = true ∧
    netDepth ((applyStreetRoute minD maxD mLat xLat mLng xLng perimeter routes sr sugg
      oracle st).2).events = 1 := by
  simp only [applyStreetRoute]
  split
  · split
    · dsimp only
      split
      · exact maxRetryBranch_J _ _ _ _ oracle st hH hD
      · split
        · exact minRetryBranch_J _ _ _ _ _ oracle st hH hD
        · exact ⟨hH, hD⟩
    · dsimp only
      split
      · exact maxRetryBranch_J _ _ _ _ oracle st hH hD
      · split
        · exact minRetryBranch_J _ _ _ _ _ oracle st hH hD
        · exact ⟨hH, hD⟩
  · exact ⟨hH, hD⟩

theorem genBody_J (minD maxD : ℝ) (fs : Bool) (routes : List RouteData)
    (oracle : OsrmOracle) (r1 r2 r3 r4 : ℝ) (st : SimState)
    (hH : heldFrom 0 st.events = true) (hD : netDepth st.events = 1) :
    heldFrom 0 ((generateSuggestedRoutesBody minD maxD fs routes oracle
      r1 r2 r3 r4 st).2).events = true ∧
    netDepth ((generateSuggestedRoutesBody minD maxD fs routes oracle
      r1 r2 r3 r4 st).2).events = 1 := by
  simp only [generateSuggestedRoutesBody]
  split
  · exact ⟨hH, hD⟩
  · split
    · split
      next streetRoute st1 heq =>
        have e1 := congrArg Prod.snd heq
        dsimp only at e1
        have h1 : heldFrom 0 st1.events = true ∧ netDepth st1.events = 1 := by
          rw [← e1]
          exact step_getRoute oracle _ st hH hD
        exact applyStreetRoute_J _ _ _ _ _ _ _ _ _ _ oracle st1 h1.1 h1.2
      next st1 heq =>
        have e1 := congrArg Prod.snd heq
        dsimp only at e1
        have h1 : heldFrom 0 st1.events = true ∧ netDepth st1.events = 1 := by
          rw [← e1]
          exact step_getRoute oracle _ st hH hD
        exact h1
    · exact ⟨hH, hD⟩

/-- C7 amended: in `generateSuggestedRoutes` the shared read lock is
acquired on entry and released only on return (via `defer`), so every
routing-service call made during route suggestion happens while the read
lock is held (trace depth at least 1), never after releasing it. -/
theorem lock_held_during_calls :
    ∀ (minD maxD : ℝ) (fs : Bool) (routes : List RouteData) (oracle : OsrmOracle)
      (r1 r2 r3 r4 : ℝ) (c : Nat),
      heldFrom 0 ((generateSuggestedRoutes minD maxD fs routes oracle
        r1 r2 r3 r4 ⟨c, []⟩).2).events = true := by
  intro minD maxD fs routes oracle r1 r2 r3 r4 c
  rw [generateSuggestedRoutes, withRLock]
  simp only [List.nil_append]
  have h0 : heldFrom 0 [Event.rlock] = true := by simp [heldFrom]
  have d0 : netDepth [Event.rlock] = 1 := by simp [netDepth]
  have hbody := genBody_J minD maxD fs routes oracle r1 r2 r3 r4 ⟨c, [Event.rlock]⟩ h0 d0
  rcases hb : generateSuggestedRoutesBody minD maxD fs routes oracle r1 r2 r3 r4
    ⟨c, [Event.rlock]⟩ with ⟨res, st2⟩
  rw [hb] at hbody
  dsimp only at hbody
  try dsimp only
  rw [heldFrom_append, hbody.2]
  simp [heldFrom, hbody.1]

end WalkAssistant

namespace WalkAssistant

open scoped Classical

/-- C7 counterexample: in a concrete run (one track, unreachable routing
service) the routing-service call happens at lock depth 1 — the read lock
is not released before the request, so the trace fails the
released-before-call discipline the claim states. -/
theorem lock_free_calls_cex :
    lockFreeCalls 0 ((generateSuggestedRoutes 0 0 true routesUnit oracleDown
      0 0 0 0 st0).2).events = false := by
  norm_num [generateSuggestedRoutes, generateSuggestedRoutesBody, withRLock,
    getRouteFollowingStreets, oracleDown, routesUnit, st0, lockFreeCalls]

end WalkAssistant

namespace WalkAssistant

open scoped Classical

theorem fbb : findBoundingBox routesUnit = (0, 1, 0, 1) := by
  norm_num [findBoundingBox, routesUnit, List.enum, List.enumFrom]

theorem decode63 : decodePolyline [63, 63] = [(0, 0)] := by
  norm_num [decodePolyline, decodePolylineChecked, decodePolylineLoop, decodeValueChunk,
    signedChange]

theorem getRouteC2 : ∀ (pts : List TrackPoint) (evs : List Event),
    getRouteFollowingStreets oracleFirstOnly pts ⟨0, evs⟩ =
      (some ⟨[⟨0, 0⟩], 1 / 2, true⟩, ⟨1, evs ++ [Event.osrmCall]⟩) := by
  intro pts evs
  norm_num [getRouteFollowingStreets, oracleFirstOnly, respPoint0, decode63,
    conformedDistance, calculateRouteDistance]

theorem getRouteNone : ∀ (pts : List TrackPoint) (n : Nat) (evs : List Event), n ≠ 0 →
    getRouteFollowingStreets oracleFirstOnly pts ⟨n, evs⟩ =
      (none, ⟨n + 1, evs ++ [Event.osrmCall]⟩) := by
  intro pts n evs hn
  norm_num [getRouteFollowingStreets, oracleFirstOnly, hn]

end WalkAssistant

namespace WalkAssistant

open scoped Classical

theorem minC2_fst : ∀ (P : List TrackPoint) (evs : List Event),
    (minRetryBranch 1 (1 / 2) P routesUnit ⟨[⟨0, 0⟩], 1 / 2, true⟩ oracleFirstOnly
      ⟨1, evs⟩).1 = ⟨[⟨0, 0⟩], 0, false⟩ := by
  intro P evs
  rw [minRetryBranch]
  try dsimp only
  rw [getRouteNone _ 1 _ (by norm_num)]
  try dsimp only
  rw [minRetryLargerPolygon]
  try dsimp only
  rw [getRouteNone _ 2 _ (by norm_num)]
  try dsimp only
  rw [minRetrySimple]
  try dsimp only
  rw [getRouteNone _ 3 _ (by norm_num)]
  try dsimp only
  rw [minRetryLargeSimple]
  try dsimp only
  rw [getRouteNone _ 4 _ (by norm_num)]
  try dsimp only
  rw [minRetryFinalFallback]
  norm_num [extendRoute, calculateRouteDistance]

end WalkAssistant

namespace WalkAssistant

open scoped Classical

theorem applyC2 : ∀ (P : List TrackPoint) (sugg : SuggestedRoute) (evs : List Event),
    ((applyStreetRoute 1 0 0 1 0 1 P routesUnit ⟨[⟨0, 0⟩], 1 / 2, true⟩ sugg
      oracleFirstOnly ⟨1, evs⟩).1).map SuggestedRoute.FollowsStreets = [true] := by
  intro P sugg evs
  rw [applyStreetRoute]
  rw [if_pos (by norm_num [isRouteNearExistingRoutes])]
  norm_num [minC2_fst]

end WalkAssistant

namespace WalkAssistant

open scoped Classical

theorem withRLock_fst {α : Type} (body : SimState → α × SimState) (st : SimState) :
    (withRLock body st).1 = (body ⟨st.calls, st.events ++ [Event.rlock]⟩).1 := by
  rw [withRLock]

/-- C2: concrete run in which every min-distance retry falls short and the
engine falls back to zigzag-extending the conformed route: the returned
route has `FollowsStreets = true` (the override at main.go lines
1386-1391), although the fallback just set it to false. -/
theorem min_fallback_returns_followsStreets_true :
    ((generateSuggestedRoutes 1 0 true routesUnit oracleFirstOnly 0 0 0 0 st0).1).map
      SuggestedRoute.FollowsStreets = [true] := by
  rw [generateSuggestedRoutes, withRLock_fst]
  rw [generateSuggestedRoutesBody]
  simp only [st0, List.nil_append, fbb]
  have hne : ¬ (routesUnit = []) := by simp [routesUnit]
  norm_num [getRouteC2, applyC2, hne]

end WalkAssistant
